import Mathlib

/-!
Verification of the A2A agent route adapter, the competitor web-search tool
result mapping, and the competitor-research scorer of this repository.

The JavaScript source is shallowly embedded: JSON values become the
inductive type JValue, optional object fields become Option, JavaScript
truthiness and the logical-or defaulting idiom become explicit helper
functions, and the impure sources of data (UUID generation, the clock, the
environment variables, the downstream agent call, the search provider
response) become parameters of the embedded functions.
-/

set_option autoImplicit false

namespace A2A

/-- A JSON value, as manipulated by the route handler. -/
inductive JValue where
  | jnull : JValue
  | jbool (b : Bool) : JValue
  | jnum (n : Int) : JValue
  | jstr (s : String) : JValue
  | jarr (xs : List JValue) : JValue
  | jobj (fs : List (String × JValue)) : JValue

/-- JavaScript falsiness on JSON values: null, false, 0 and the empty
string are falsy, every array and object is truthy. -/
def jsFalsy : JValue → Bool
  | .jnull => true
  | .jbool b => !b
  | .jnum n => n == 0
  | .jstr s => s == ""
  | .jarr _ => false
  | .jobj _ => false

/-- True exactly when the JavaScript typeof operator yields the string
"object": null, arrays and plain objects. -/
def typeofObject : JValue → Bool
  | .jnull => true
  | .jarr _ => true
  | .jobj _ => true
  | _ => false

/-- JSON string escaping of a single character, as JSON.stringify does for
the characters that occur in this development. -/
def escapeChar (c : Char) : String :=
  if c == Char.ofNat 34 then "\\\""
  else if c == Char.ofNat 92 then "\\\\"
  else if c == Char.ofNat 10 then "\\n"
  else if c == Char.ofNat 9 then "\\t"
  else if c == Char.ofNat 13 then "\\r"
  else String.singleton c

/-- A JSON string literal: the escaped characters between double quotes. -/
def quoteStr (s : String) : String :=
  "\"" ++ String.join (s.data.map escapeChar) ++ "\""

mutual

/-- Embedding of JSON.stringify with no spacing argument: compact output,
fields in object order. -/
def stringify : JValue → String
  | .jnull => "null"
  | .jbool true => "true"
  | .jbool false => "false"
  | .jnum n => toString n
  | .jstr s => quoteStr s
  | .jarr xs => "[" ++ stringifyArr xs ++ "]"
  | .jobj fs => "\x7b" ++ stringifyObj fs ++ "\x7d"

/-- Comma-separated stringification of the elements of a JSON array. -/
def stringifyArr : List JValue → String
  | [] => ""
  | [v] => stringify v
  | v :: vs => stringify v ++ "," ++ stringifyArr vs

/-- Comma-separated stringification of the fields of a JSON object. -/
def stringifyObj : List (String × JValue) → String
  | [] => ""
  | [(k, v)] => quoteStr k ++ ":" ++ stringify v
  | (k, v) :: fs => quoteStr k ++ ":" ++ stringify v ++ "," ++ stringifyObj fs

end

/-- The whitespace characters removed by the JavaScript trim method, for
the inputs arising here: space, tab, newline, carriage return. -/
def isWsChar (c : Char) : Bool :=
  c == Char.ofNat 32 || c == Char.ofNat 9 || c == Char.ofNat 10 || c == Char.ofNat 13

/-- Embedding of the JavaScript String.prototype.trim method. -/
def jsTrim (s : String) : String :=
  String.mk (((s.data.dropWhile isWsChar).reverse.dropWhile isWsChar).reverse)

/-- Whether the list starts with the given list, by characterwise equality. -/
def startsWithList : List Char → List Char → Bool
  | [], _ => true
  | _ :: _, [] => false
  | a :: as, b :: bs => a == b && startsWithList as bs

/-- Whether the second list occurs as a contiguous sublist of the first. -/
def containsList (sub : List Char) : List Char → Bool
  | [] => sub.isEmpty
  | c :: cs => startsWithList sub (c :: cs) || containsList sub cs

/-- Embedding of the JavaScript String.prototype.includes method. -/
def jsIncludes (s sub : String) : Bool :=
  containsList sub.data s.data

/-- Embedding of the JavaScript Array.prototype.join method on an array
of strings. -/
def jsJoin (sep : String) : List String → String
  | [] => ""
  | [s] => s
  | s :: rest => s ++ sep ++ jsJoin sep rest

/-- The JavaScript logical-or defaulting idiom on an optional string: an
absent or empty string is replaced by the default. -/
def orD (o : Option String) (d : String) : String :=
  match o with
  | none => d
  | some s => if s = "" then d else s

/-- The idiom value-or-null on an optional string: a falsy value (absent
or empty) becomes null, that is, none. -/
def jsOrNullStr : Option String → Option String
  | none => none
  | some s => if s = "" then none else some s

/-- The idiom value-or-null on an optional JSON value: a falsy value
becomes null, that is, none. -/
def jsOrNullJson : Option JValue → Option JValue
  | none => none
  | some v => if jsFalsy v then none else some v

/-- JavaScript truthiness of an optional string field. -/
def truthyStr : Option String → Bool
  | none => false
  | some s => s != ""

/-- An apostrophe, used in the agent-not-found error message. -/
def apos : String := String.singleton (Char.ofNat 39)

/-- One element of the parts array of an inbound A2A message. -/
structure Part where
  kind : Option String
  text : Option String
  data : Option JValue
  file_url : Option String

/-- An inbound A2A message. The parts field is none when the message has
no parts array. -/
structure Msg where
  role : Option String
  parts : Option (List Part)
  content : Option String
  messageId : Option String
  taskId : Option String
  metadata : Option JValue

/-- The params object of the JSON-RPC request. -/
structure Params where
  message : Option Msg
  messages : Option (List Msg)
  contextId : Option String
  taskId : Option String
  metadata : Option JValue

/-- The JSON-RPC envelope fields read by the route handler. -/
structure Body where
  jsonrpc : Option String
  id : Option String
  method : Option String
  params : Option Params

/-- The request body as seen after parsing: either malformed JSON or an
empty object (both collapse to the same branch in the handler), or a
non-empty object. -/
inductive ReqBody where
  | empty : ReqBody
  | obj (b : Body) : ReqBody

/-- An internal message handed to the downstream agent. -/
structure MastraMsg where
  role : String
  content : String
deriving DecidableEq

/-- Contribution of one part to the flattened text, from the map inside
the mastraMessages conversion: a text part contributes its text, a data
part contributes the data itself when it is a string, its JSON
stringification when the typeof operator says object, and nothing
otherwise; every other kind contributes nothing. -/
def flattenPart (p : Part) : String :=
  if p.kind = some "text" then (p.text).getD ""
  else if p.kind = some "data" then
    match p.data with
    | none => ""
    | some (JValue.jstr s) => s
    | some v => if typeofObject v then stringify v else ""
  else ""

/-- Conversion of one inbound A2A message to the internal format: without
a parts array the raw content is used; otherwise the non-empty part
contributions are joined with newlines, falling back to the raw content
when that join is empty. -/
def flattenMsg (m : Msg) : MastraMsg :=
  match m.parts with
  | none =>
    { role := orD m.role "user", content := (m.content).getD "" }
  | some ps =>
    let content := jsJoin "\n" (((ps.map flattenPart).filter (fun t => t.length > 0)))
    { role := orD m.role "user",
      content := if content = "" then (m.content).getD "" else content }

/-- The messagesList extraction: a message field wins, else a messages
array, else the empty list. -/
def extractMessages (p : Params) : List Msg :=
  match p.message with
  | some m => [m]
  | none =>
    match p.messages with
    | some ms => ms
    | none => []

/-- The emptiness test applied to the converted messages before invoking
the agent: every message has a falsy or whitespace-only content. -/
def allEmptyContent (ms : List MastraMsg) : Bool :=
  ms.all (fun m => m.content == "" || jsTrim m.content == "")

/-- One part of an outbound task message or artifact. -/
structure TaskMsgPart where
  kind : String
  text : Option String
  data : Option JValue
  file_url : Option String

/-- An outbound message in the task status or history. -/
structure TaskMessage where
  kind : String
  role : String
  parts : List TaskMsgPart
  messageId : String
  taskId : Option String
  metadata : Option JValue

/-- An outbound artifact. -/
structure Artifact where
  artifactId : String
  name : String
  parts : List TaskMsgPart

/-- The status object of an outbound task. -/
structure TaskStatus where
  state : String
  timestamp : String
  message : TaskMessage

/-- The result object of a successful response. -/
structure TaskResult where
  id : String
  contextId : String
  status : TaskStatus
  artifacts : List Artifact
  history : List TaskMessage
  kind : String

/-- The data object attached to an internal-error response. -/
structure ErrData where
  details : String
  stack : Option String

/-- A JSON-RPC error object. -/
structure RpcError where
  code : Int
  message : String
  data : Option ErrData

/-- A JSON-RPC response envelope. -/
structure RpcResponse where
  jsonrpc : String
  id : Option String
  result : Option TaskResult
  error : Option RpcError

/-- What the downstream agent call returns on success. -/
structure AgentResult where
  text : Option String
  toolResults : Option (List JValue)

/-- A thrown JavaScript error: its message and optional stack. -/
structure JsError where
  message : String
  stack : Option String

/-- The impure context of one request: whether getAgent finds the agent,
a supply of fresh UUIDs indexed by call site, the clock, and the
NODE_ENV environment variable. -/
structure Env where
  agentExists : Bool
  uuidSupply : Nat → String
  now : String
  nodeEnv : Option String

/-- The success response returned for a missing or empty request body:
a completed task with a placeholder text part, no artifacts and no
history, HTTP status 200. -/
def emptyBodyResult (env : Env) : RpcResponse × Nat :=
  ({ jsonrpc := "2.0"
     id := none
     result := some
       { id := env.uuidSupply 0
         contextId := env.uuidSupply 1
         status :=
           { state := "completed"
             timestamp := env.now
             message :=
               { kind := "message"
                 role := "agent"
                 parts := [{ kind := "text", text := some "No message provided",
                             data := none, file_url := none }]
                 messageId := env.uuidSupply 2
                 taskId := none
                 metadata := none } }
         artifacts := []
         history := []
         kind := "task" }
     error := none }, 200)

/-- A bare JSON-RPC error response with the given id, code, message and
HTTP status, as returned by the envelope validation branches. -/
def rpcError (id : Option String) (code : Int) (msg : String) (status : Nat) :
    RpcResponse × Nat :=
  ({ jsonrpc := "2.0", id := id, result := none,
     error := some { code := code, message := msg, data := none } }, status)

/-- Normalization of one inbound part for the history array: the kind
defaults to text, and falsy text, data and file_url become null. -/
def normalizePart (p : Part) : TaskMsgPart :=
  { kind := orD p.kind "text"
    text := jsOrNullStr p.text
    data := jsOrNullJson p.data
    file_url := jsOrNullStr p.file_url }

/-- The normalized parts of one inbound message: its parts array, or a
single synthetic text part holding its raw content, each normalized. -/
def normalizeParts (m : Msg) : List TaskMsgPart :=
  ((m.parts).getD
    [{ kind := some "text", text := some ((m.content).getD ""), data := none,
       file_url := none }]).map normalizePart

/-- The history entry built from the inbound message at a given index:
the first message carries a null taskId, later ones default to the final
task id. -/
def historyEntry (env : Env) (finalTaskId : String) (i : Nat) (m : Msg) :
    TaskMessage :=
  { kind := "message"
    role := orD m.role "user"
    parts := normalizeParts m
    messageId := orD m.messageId (env.uuidSupply (10 + i))
    taskId := if i = 0 then none else some (orD m.taskId finalTaskId)
    metadata := jsOrNullJson m.metadata }

/-- The text part used for the agent reply, in the status message, the
first artifact and the final history entry. -/
def agentTextPart (agentText : String) : TaskMsgPart :=
  { kind := "text", text := some agentText, data := none, file_url := none }

/-- The success response built after the agent call: the completed task
with its artifacts and reconstructed history, HTTP status 200. -/
def successResponse (env : Env) (agentId : String) (reqId : Option String)
    (p : Params) (res : AgentResult) : RpcResponse × Nat :=
  let agentText := (res.text).getD ""
  let finalTaskId := orD p.taskId (env.uuidSupply 0)
  let finalContextId := orD p.contextId (env.uuidSupply 1)
  let ml := extractMessages p
  let firstArtifact : Artifact :=
    { artifactId := env.uuidSupply 2
      name := agentId ++ "Response"
      parts := [agentTextPart agentText] }
  let toolRs := (res.toolResults).getD []
  let artifacts :=
    if toolRs.length > 0 then
      [firstArtifact,
       { artifactId := env.uuidSupply 3
         name := "ToolResults"
         parts := toolRs.map (fun r =>
           { kind := "data", data := some r, text := none, file_url := none }) }]
    else [firstArtifact]
  let finalMsg : TaskMessage :=
    { kind := "message"
      role := "agent"
      parts := [agentTextPart agentText]
      messageId := env.uuidSupply 4
      taskId := some finalTaskId
      metadata := none }
  let history := (ml.enum.map (fun pr => historyEntry env finalTaskId pr.1 pr.2)) ++ [finalMsg]
  ({ jsonrpc := "2.0"
     id := reqId
     result := some
       { id := finalTaskId
         contextId := finalContextId
         status :=
           { state := "completed"
             timestamp := env.now
             message :=
               { kind := "message"
                 role := "agent"
                 parts := [agentTextPart agentText]
                 messageId := env.uuidSupply 5
                 taskId := some finalTaskId
                 metadata := none } }
         artifacts := artifacts
         history := history
         kind := "task" }
     error := none }, 200)

/-- The catch block: an error whose message mentions Agent keeps code
-32602 and its own message, one mentioning tool or function keeps code
-32603 with a prefixed message, anything else is a plain internal error;
the stack is attached only when NODE_ENV is exactly development; HTTP
status 500. -/
def catchResponse (env : Env) (reqId : Option String) (e : JsError) :
    RpcResponse × Nat :=
  let code : Int := if jsIncludes e.message "Agent" then -32602 else -32603
  let msg :=
    if jsIncludes e.message "Agent" then e.message
    else if jsIncludes e.message "tool" || jsIncludes e.message "function" then
      "Agent execution error: " ++ e.message
    else "Internal error"
  ({ jsonrpc := "2.0"
     id := reqId
     result := none
     error := some
       { code := code
         message := msg
         data := some
           { details := e.message
             stack := if env.nodeEnv = some "development" then e.stack else none } } },
   500)

/-- The route handler for POST requests on the a2a agent path, with the
impure context and the outcome of the downstream agent call passed as
parameters. -/
def handler (env : Env) (ar : Except JsError AgentResult) (agentId : String) :
    ReqBody → RpcResponse × Nat
  | .empty => emptyBodyResult env
  | .obj b =>
    if b.jsonrpc ≠ some "2.0" then
      rpcError (if truthyStr b.id then b.id else none) (-32600)
        ("Invalid Request: jsonrpc must be \"2.0\"") 400
    else if truthyStr b.id = false then
      rpcError none (-32600) "Invalid Request: id is required" 400
    else if env.agentExists = false then
      rpcError b.id (-32602) ("Agent " ++ apos ++ agentId ++ apos ++ " not found") 404
    else
      match b.params with
      | none => rpcError b.id (-32602) "Invalid params: params object is required" 400
      | some p =>
        let ml := extractMessages p
        if ml.length = 0 then
          rpcError b.id (-32602)
            "Invalid params: message or messages array is required" 400
        else if allEmptyContent (ml.map flattenMsg) then
          rpcError b.id (-32602) "Invalid params: message content cannot be empty" 400
        else
          match ar with
          | .error e => catchResponse env b.id e
          | .ok res => successResponse env agentId b.id p res

/-- The error code of a response, when it is an error response. -/
def errCode (r : RpcResponse × Nat) : Option Int :=
  (r.1.error).map (fun e => e.code)

/-- The stack attached to the error data of a response, when present. -/
def errStack (r : RpcResponse × Nat) : Option String :=
  ((r.1.error).bind (fun e => e.data)).bind (fun d => d.stack)

/-- The number of artifacts of a successful response, when present. -/
def artifactsCount (r : RpcResponse × Nat) : Option Nat :=
  (r.1.result).map (fun t => t.artifacts.length)

/-- Join of a list of fragments dropping the empty ones, one newline
between consecutive kept fragments. Stated from the words of the text
flattening rule, to be compared with the map-filter-intercalate shape of
the source. -/
def joinNonEmpty : List String → String
  | [] => ""
  | s :: rest =>
    if s = "" then joinNonEmpty rest
    else
      let r := joinNonEmpty rest
      if r = "" then s else s ++ "\n" ++ r

/-- Contribution of one part to the flattened text as the amended claim
words it: a text part gives its text, a data part gives the string itself
when the data is a string, the compact JSON stringification when the data
is an object, an array or null, and nothing otherwise, with no special
treatment of history-like arrays. -/
def claimPartText (p : Part) : String :=
  if p.kind = some "text" then (p.text).getD ""
  else if p.kind = some "data" then
    match p.data with
    | none => ""
    | some (JValue.jstr s) => s
    | some v => if typeofObject v then stringify v else ""
  else ""

/-- The flattened content of one inbound message as the amended claim
words it: without a parts array the raw content, otherwise the non-empty
part contributions joined with newlines, falling back to the raw content
when that join is empty. -/
def claimFlattenContent (m : Msg) : String :=
  match m.parts with
  | none => (m.content).getD ""
  | some ps =>
    let t := joinNonEmpty (ps.map claimPartText)
    if t = "" then (m.content).getD "" else t

end A2A

namespace CompetitorSearch

open A2A

/-- One raw result of the search provider, with the fields the tool
reads; absent fields are none. -/
structure ExaResult where
  title : Option String
  url : Option String
  text : Option String
  publishedDate : Option String
deriving DecidableEq

/-- One element of the list the web-search tool returns. -/
structure SearchItem where
  title : Option String
  url : String
  content : String
  publishedDate : Option String
deriving DecidableEq

/-- Embedding of the JavaScript String.prototype.slice method applied
from index zero: the first n characters. -/
def jsSlice (s : String) (n : Nat) : String :=
  String.mk (s.data.take n)

/-- The per-result mapping of the tool: title or null, url or the empty
string, the text defaulted to empty and cut to its first 500 characters,
and the published date passed through. -/
def mapResult (r : ExaResult) : SearchItem :=
  { title := jsOrNullStr r.title
    url := (r.url).getD ""
    content := jsSlice ((r.text).getD "") 500
    publishedDate := r.publishedDate }

/-- The full output mapping of the tool: map each provider result, then
drop the items whose url is falsy. -/
def mapResults (rs : List ExaResult) : List SearchItem :=
  (rs.map mapResult).filter (fun r => r.url != "")

end CompetitorSearch

namespace Scorer

/-- The analyze-step result consumed by the competitor-research score
function, after schema validation: three booleans and an optional
confidence; numbers are modelled exactly as rationals. -/
structure AnalyzeResult where
  competitorsFound : Bool
  specificNames : Bool
  relevantToIdea : Bool
  confidence : Option ℚ

/-- The generateScore function of the competitor-research scorer: fixed
partial credits for missing competitors, missing specific names or
missing relevance, otherwise a confidence-weighted score clamped to the
unit interval; an absent confidence counts as one. -/
def generateScore (r : AnalyzeResult) : ℚ :=
  if !r.competitorsFound then 3 / 10
  else if !r.specificNames then 5 / 10
  else if !r.relevantToIdea then 6 / 10
  else
    let c := (r.confidence).getD 1
    max 0 (min 1 (8 / 10 + 2 / 10 * c))

end Scorer

open A2A CompetitorSearch Scorer

/-- A concrete impure context: the agent exists and NODE_ENV is test. -/
def env0 : Env :=
  { agentExists := true, uuidSupply := fun _ => "uuid", now := "now",
    nodeEnv := some "test" }

/-- A concrete impure context in which the agent lookup fails. -/
def envNoAgent : Env :=
  { env0 with agentExists := false }

/-- A concrete inbound message carrying only raw content. -/
def msgHi : Msg :=
  { role := none, parts := none, content := some "hi", messageId := none,
    taskId := none, metadata := none }

/-- Concrete params carrying the single message msgHi. -/
def paramsHi : Params :=
  { message := some msgHi, messages := none, contextId := none, taskId := none,
    metadata := none }

/-- A concrete well-formed request body. -/
def bodyHi : Body :=
  { jsonrpc := some "2.0", id := some "1", method := some "message/send",
    params := some paramsHi }

/-- A concrete agent outcome with a reply and no tool results. -/
def agentOk : Except JsError AgentResult :=
  .ok { text := some "reply", toolResults := none }

/-- A request body with a wrong jsonrpc version. -/
def bodyBadRpc : Body :=
  { bodyHi with jsonrpc := some "1.0" }

/-- A request body with no id. -/
def bodyNoId : Body :=
  { bodyHi with id := none }

/-- A request body with no params. -/
def bodyNoParams : Body :=
  { bodyHi with params := none }

/-- A second messages array, ignored when a message field is present. -/
def paramsBoth : Params :=
  { paramsHi with
    messages := some [{ msgHi with content := some "ignored" }] }

/-- A request body whose params carries both a message and messages. -/
def bodyBoth : Body :=
  { bodyHi with params := some paramsBoth }

/-- A message whose content is only spaces. -/
def msgBlank : Msg :=
  { msgHi with content := some "   " }

/-- A request body whose single message is whitespace-only. -/
def bodyBlank : Body :=
  { bodyHi with params := some { paramsHi with message := some msgBlank } }

/-- A concrete throwing agent outcome, to exhibit independence from the
agent in the witness. -/
def agentBoom : Except JsError AgentResult :=
  .error { message := "boom", stack := some "trace" }

/-- A data part whose datum is a history-like array of items. -/
def histPart : Part :=
  { kind := some "data", text := none,
    data := some (.jarr [.jobj
      [("text", .jstr "This entry is long enough plain text to extract")]]),
    file_url := none }

/-- An inbound message whose only part is the history-like data part. -/
def msgHist : Msg :=
  { role := some "user", parts := some [histPart], content := some "raw content",
    messageId := none, taskId := none, metadata := none }

/-- A concrete agent outcome with two tool-call results. -/
def agentTools : Except JsError AgentResult :=
  .ok { text := some "reply", toolResults := some [.jnum 1, .jnum 2] }

/-- A concrete agent failure whose message mentions Agent. -/
def agentErr : JsError :=
  { message := "Agent generate failure", stack := some "stacktrace" }

/-- A concrete provider result with a long text. -/
def exaLong : ExaResult :=
  { title := some "Competitor page"
    url := some "https://example.com"
    text := some (String.mk (List.replicate 900 (Char.ofNat 97)))
    publishedDate := none }

/-- A concrete schema-valid analyze-step result with every flag set. -/
def analyzeFull : AnalyzeResult :=
  { competitorsFound := true, specificNames := true, relevantToIdea := true,
    confidence := some (1 / 2) }

/-- C5: a request whose body fails to parse as JSON or parses to an empty
object gets a success response with HTTP status 200 whose task status
message has exactly one text part reading No message provided, an empty
artifacts array and an empty history array. -/
theorem C5_empty_body_placeholder (env : Env) (ar : Except JsError AgentResult)
    (aid : String) :
    (handler env ar aid .empty).2 = 200 ∧
    (handler env ar aid .empty).1.error = none ∧
    ((handler env ar aid .empty).1.result).map
        (fun t => (t.status.state,
                   t.status.message.parts.map (fun p => (p.kind, p.text)),
                   t.artifacts, t.history)) =
      some ("completed", [("text", some "No message provided")], [], []) :=
  ⟨rfl, rfl, rfl⟩

/-- C2: for a non-empty body the envelope checks run in order, each one
reachable only when the earlier ones passed: a jsonrpc field other than
2.0 gives code -32600, then a falsy id gives code -32600, then an unknown
agent gives code -32602 with HTTP status 404, then missing params gives
code -32602. -/
theorem C2_envelope_checks (env : Env) (ar : Except JsError AgentResult)
    (aid : String) (b : Body) :
    (b.jsonrpc ≠ some "2.0" →
      errCode (handler env ar aid (.obj b)) = some (-32600)) ∧
    (b.jsonrpc = some "2.0" → truthyStr b.id = false →
      errCode (handler env ar aid (.obj b)) = some (-32600)) ∧
    (b.jsonrpc = some "2.0" → truthyStr b.id = true → env.agentExists = false →
      errCode (handler env ar aid (.obj b)) = some (-32602) ∧
      (handler env ar aid (.obj b)).2 = 404) ∧
    (b.jsonrpc = some "2.0" → truthyStr b.id = true → env.agentExists = true →
      b.params = none →
      errCode (handler env ar aid (.obj b)) = some (-32602)) := by
  refine ⟨?_, ?_, ?_, ?_⟩
  · intro h
    simp [handler, h, rpcError, errCode]
  · intro h1 h2
    simp [handler, h1, h2, rpcError, errCode]
  · intro h1 h2 h3
    simp [handler, h1, h2, h3, rpcError, errCode]
  · intro h1 h2 h3 h4
    simp [handler, h1, h2, h3, h4, rpcError, errCode]

/-- Witness for C2: the four envelope outcomes at concrete requests. -/
theorem C2_envelope_checks_witness :
    errCode (handler env0 agentOk "a" (.obj bodyBadRpc)) = some (-32600) ∧
    errCode (handler env0 agentOk "a" (.obj bodyNoId)) = some (-32600) ∧
    (errCode (handler envNoAgent agentOk "a" (.obj bodyHi)) = some (-32602) ∧
      (handler envNoAgent agentOk "a" (.obj bodyHi)).2 = 404) ∧
    errCode (handler env0 agentOk "a" (.obj bodyNoParams)) = some (-32602) :=
  ⟨(C2_envelope_checks env0 agentOk "a" bodyBadRpc).1 (by decide),
   (C2_envelope_checks env0 agentOk "a" bodyNoId).2.1 rfl rfl,
   (C2_envelope_checks envNoAgent agentOk "a" bodyHi).2.2.1 rfl rfl rfl,
   (C2_envelope_checks env0 agentOk "a" bodyNoParams).2.2.2 rfl rfl rfl rfl⟩

/-- Reduction of the handler to the success builder once the envelope is
valid, the message list is non-empty, some content is non-empty and the
agent call succeeds. -/
theorem handler_ok_eq (env : Env) (aid : String) (b : Body) (p : Params)
    (res : AgentResult)
    (h1 : b.jsonrpc = some "2.0") (h2 : truthyStr b.id = true)
    (h3 : env.agentExists = true) (hp : b.params = some p)
    (hml : extractMessages p ≠ [])
    (hc : allEmptyContent ((extractMessages p).map flattenMsg) = false) :
    handler env (.ok res) aid (.obj b) = successResponse env aid b.id p res := by
  simp [handler, h1, h2, h3, hp, List.length_eq_zero, hml, hc]

/-- Reduction of the handler to the catch block when the agent call
throws on an otherwise valid request. -/
theorem handler_error_eq (env : Env) (aid : String) (b : Body) (p : Params)
    (e : JsError)
    (h1 : b.jsonrpc = some "2.0") (h2 : truthyStr b.id = true)
    (h3 : env.agentExists = true) (hp : b.params = some p)
    (hml : extractMessages p ≠ [])
    (hc : allEmptyContent ((extractMessages p).map flattenMsg) = false) :
    handler env (.error e) aid (.obj b) = catchResponse env b.id e := by
  simp [handler, h1, h2, h3, hp, List.length_eq_zero, hml, hc]

/-- C8: when params carries both a message and a messages array the
message field wins: the processed list is the singleton of that message,
and the handler output does not change when the messages array is
dropped. -/
theorem C8_message_precedence (env : Env) (ar : Except JsError AgentResult)
    (aid : String) (b : Body) (p : Params) (m : Msg)
    (hp : b.params = some p) (hm : p.message = some m) :
    extractMessages p = [m] ∧
    handler env ar aid (.obj b) =
      handler env ar aid (.obj { b with params := some { p with messages := none } }) := by
  obtain ⟨jr, i, me, pa⟩ := b
  obtain ⟨pm, pms, pc, pt, pmd⟩ := p
  simp only [] at hp hm
  cases hm
  cases hp
  exact ⟨rfl, rfl⟩

/-- Witness for C8: at a concrete request carrying both fields, the
processed list is the singleton and the messages array is ignored. -/
theorem C8_message_precedence_witness :
    extractMessages paramsBoth = [msgHi] ∧
    handler env0 agentOk "a" (.obj bodyBoth) =
      handler env0 agentOk "a"
        (.obj { bodyBoth with params := some { paramsBoth with messages := none } }) :=
  C8_message_precedence env0 agentOk "a" bodyBoth paramsBoth msgHi rfl rfl

/-- C6: when the envelope is valid but no message text is resolvable,
either because no message and no messages array is given or because every
flattened content is whitespace-only, the route answers with code -32602
and HTTP status 400 without consulting the agent outcome. -/
theorem C6_no_resolvable_text (env : Env) (ar ar2 : Except JsError AgentResult)
    (aid : String) (b : Body) (p : Params)
    (h1 : b.jsonrpc = some "2.0") (h2 : truthyStr b.id = true)
    (h3 : env.agentExists = true) (hp : b.params = some p)
    (h : (p.message = none ∧ p.messages = none) ∨
         (∀ m ∈ extractMessages p, jsTrim (flattenMsg m).content = "")) :
    errCode (handler env ar aid (.obj b)) = some (-32602) ∧
    (handler env ar aid (.obj b)).2 = 400 ∧
    handler env ar aid (.obj b) = handler env ar2 aid (.obj b) := by
  have key : ∀ ar' : Except JsError AgentResult,
      handler env ar' aid (.obj b) =
        (if (extractMessages p).length = 0 then
          rpcError b.id (-32602)
            "Invalid params: message or messages array is required" 400
        else
          rpcError b.id (-32602)
            "Invalid params: message content cannot be empty" 400) := by
    intro ar'
    by_cases hml : extractMessages p = []
    · simp [handler, h1, h2, h3, hp, hml, List.length_eq_zero]
    · have hall : ∀ m ∈ extractMessages p, jsTrim (flattenMsg m).content = "" := by
        rcases h with ⟨hm, hms⟩ | hall
        · exact absurd (by simp [extractMessages, hm, hms]) hml
        · exact hall
      have hA : allEmptyContent ((extractMessages p).map flattenMsg) = true := by
        rw [allEmptyContent, List.all_eq_true]
        intro x hx
        rw [List.mem_map] at hx
        obtain ⟨m, hm, rfl⟩ := hx
        have ht := hall m hm
        simp [ht]
      simp [handler, h1, h2, h3, hp, hml, List.length_eq_zero, hA]
  refine ⟨?_, ?_, ?_⟩
  · rw [key ar]; split <;> rfl
  · rw [key ar]; split <;> rfl
  · rw [key ar, key ar2]

/-- Witness for C6: a whitespace-only message gets code -32602 and the
same response whether the agent call would succeed or throw. -/
theorem C6_no_resolvable_text_witness :
    errCode (handler env0 agentOk "a" (.obj bodyBlank)) = some (-32602) ∧
    (handler env0 agentOk "a" (.obj bodyBlank)).2 = 400 ∧
    handler env0 agentOk "a" (.obj bodyBlank) =
      handler env0 agentBoom "a" (.obj bodyBlank) :=
  C6_no_resolvable_text env0 agentOk agentBoom "a" bodyBlank
    { paramsHi with message := some msgBlank } rfl rfl rfl rfl
    (Or.inr (by intro m hm; simp [extractMessages] at hm; subst hm; rfl))

/-- Appending strings appends their character lists. -/
theorem strAppendData (s t : String) : (s ++ t).data = s.data ++ t.data := rfl

/-- A string other than the empty string has positive length. -/
theorem strLengthPos (s : String) (h : s ≠ "") : 0 < s.length := by
  cases s with
  | mk data =>
    cases data with
    | nil => exact absurd rfl h
    | cons c cs => simp [String.length]

/-- A string of positive length is not the empty string. -/
theorem strNeOfLengthPos (s : String) (h : 0 < s.length) : s ≠ "" := by
  intro he
  subst he
  simp [String.length] at h

/-- Joining a list headed by a non-empty string gives a non-empty
string. -/
theorem jsJoin_cons_ne (x : String) (xs : List String) (hx : x ≠ "") :
    jsJoin "\n" (x :: xs) ≠ "" := by
  cases xs with
  | nil => exact hx
  | cons y ys =>
    show x ++ "\n" ++ jsJoin "\n" (y :: ys) ≠ ""
    intro h
    have hd : (x ++ "\n" ++ jsJoin "\n" (y :: ys)).data = [] := by rw [h]
    rw [strAppendData, strAppendData] at hd
    simp at hd

/-- Dropping the empty fragments before joining with newlines is the
same as the one-pass join that skips empty fragments. -/
theorem jsJoin_filter_eq_joinNonEmpty (l : List String) :
    jsJoin "\n" (l.filter (fun t => t.length > 0)) = joinNonEmpty l := by
  induction l with
  | nil => rfl
  | cons s rest ih =>
    by_cases hs : s = ""
    · subst hs
      simp only [joinNonEmpty, if_pos rfl, ← ih]
      congr 1
    · have hkeep : (s :: rest).filter (fun t => t.length > 0) =
          s :: rest.filter (fun t => t.length > 0) := by
        simp [List.filter_cons, strLengthPos s hs]
      rw [hkeep]
      simp only [joinNonEmpty, if_neg hs]
      cases hrf : rest.filter (fun t => t.length > 0) with
      | nil =>
        have hre : joinNonEmpty rest = "" := by
          rw [← ih, hrf]
          rfl
        rw [hre, if_pos rfl]
        rfl
      | cons x xs =>
        have hxmem : x ∈ rest.filter (fun t => t.length > 0) := by
          rw [hrf]
          exact List.mem_cons_self x xs
        have hxlen : x.length > 0 := by
          have := List.of_mem_filter hxmem
          simpa using this
        have hjr : joinNonEmpty rest = jsJoin "\n" (x :: xs) := by
          rw [← ih, hrf]
        have hne : joinNonEmpty rest ≠ "" := by
          rw [hjr]
          exact jsJoin_cons_ne x xs (strNeOfLengthPos x hxlen)
        rw [if_neg hne, hjr]
        rfl

/-- The per-part contribution of the conversion coincides with the
amended wording. -/
theorem flattenPart_eq_claimPartText (p : Part) :
    flattenPart p = claimPartText p := rfl

/-- C1 amended: the flattened text of an inbound message with a parts
array is the newline join of the non-empty part contributions, where a
text part gives its text, a data part gives a string datum itself or the
compact JSON stringification of an object, array or null datum and
nothing otherwise, with no special treatment of history-like arrays,
falling back to the raw content field when the join is empty; a message
without a parts array keeps its raw content. -/
theorem C1_flatten_amended (m : Msg) :
    (flattenMsg m).content = claimFlattenContent m := by
  cases hm : m.parts with
  | none => simp [flattenMsg, claimFlattenContent, hm]
  | some ps =>
    simp only [flattenMsg, claimFlattenContent, hm]
    have hmap : ps.map flattenPart = ps.map claimPartText := by
      simp [flattenPart_eq_claimPartText]
    rw [hmap, jsJoin_filter_eq_joinNonEmpty]

/-- Counterexample for C1 as stated: on a data part holding an array of
history-like items the code emits the JSON stringification of the whole
array, not the extracted last long non-markup text entry. -/
theorem C1_counterexample :
    (flattenMsg msgHist).content =
      "[\x7b\"text\":\"This entry is long enough plain text to extract\"\x7d]" ∧
    (flattenMsg msgHist).content ≠
      "This entry is long enough plain text to extract" := by
  constructor
  · rfl
  · decide

/-- Counterexample for C3 as stated: with two tool-call results the
artifacts array has two entries, not two plus one. -/
theorem C3_counterexample :
    artifactsCount (handler env0 agentTools "devilsAdvocateAgent" (.obj bodyHi)) =
      some 2 ∧
    (2 : Nat) ≠ 2 + 1 :=
  ⟨rfl, by decide⟩

/-- C3 amended: a successful invocation yields one text artifact carrying
the reply, and when at least one tool-call result occurred one additional
ToolResults artifact holding one data part per tool result, so the
artifacts array has two entries with tool results and one without. -/
theorem C3_artifacts_amended (env : Env) (aid : String) (b : Body) (p : Params)
    (res : AgentResult)
    (h1 : b.jsonrpc = some "2.0") (h2 : truthyStr b.id = true)
    (h3 : env.agentExists = true) (hp : b.params = some p)
    (hml : extractMessages p ≠ [])
    (hc : allEmptyContent ((extractMessages p).map flattenMsg) = false) :
    artifactsCount (handler env (.ok res) aid (.obj b)) =
      some (if ((res.toolResults).getD []).length > 0 then 2 else 1) ∧
    ((handler env (.ok res) aid (.obj b)).1.result).map
        (fun t => (t.artifacts.head?).map (fun a => a.parts)) =
      some (some [agentTextPart ((res.text).getD "")]) ∧
    ((handler env (.ok res) aid (.obj b)).1.result).map
        (fun t => (t.artifacts[1]?).map (fun a => a.parts.length)) =
      some (if ((res.toolResults).getD []).length > 0 then
              some ((res.toolResults).getD []).length
            else none) := by
  rw [handler_ok_eq env aid b p res h1 h2 h3 hp hml hc]
  by_cases ht : ((res.toolResults).getD []).length > 0 <;>
    simp [successResponse, artifactsCount, ht]

/-- Witness for C3 amended: the artifact counts at a concrete request
with two tool results. -/
theorem C3_artifacts_amended_witness :
    artifactsCount (handler env0 agentTools "a" (.obj bodyHi)) =
      some (if (([.jnum 1, .jnum 2] : List JValue)).length > 0 then 2 else 1) ∧
    ((handler env0 agentTools "a" (.obj bodyHi)).1.result).map
        (fun t => (t.artifacts.head?).map (fun a => a.parts)) =
      some (some [agentTextPart "reply"]) ∧
    ((handler env0 agentTools "a" (.obj bodyHi)).1.result).map
        (fun t => (t.artifacts[1]?).map (fun a => a.parts.length)) =
      some (if (([.jnum 1, .jnum 2] : List JValue)).length > 0 then
              some (([.jnum 1, .jnum 2] : List JValue)).length
            else none) :=
  C3_artifacts_amended env0 "a" bodyHi paramsHi
    { text := some "reply", toolResults := some [.jnum 1, .jnum 2] }
    rfl rfl rfl rfl (List.cons_ne_nil msgHi []) rfl

/-- Counterexample for C4 as stated: an agent failure whose message
mentions Agent gets code -32602 rather than -32603, and with NODE_ENV set
to test, which is outside production mode, no stack is attached. -/
theorem C4_counterexample :
    errCode (handler env0 (.error agentErr) "devilsAdvocateAgent" (.obj bodyHi)) =
      some (-32602) ∧
    (-32602 : Int) ≠ -32603 ∧
    env0.nodeEnv ≠ some "production" ∧
    errStack (handler env0 (.error agentErr) "devilsAdvocateAgent" (.obj bodyHi)) =
      none := by
  refine ⟨rfl, by decide, by decide, rfl⟩

/-- C4 amended: when the downstream agent invocation throws on an
otherwise valid request, the response is a JSON-RPC error with HTTP
status 500 whose code is -32603 unless the thrown message mentions Agent,
in which case it is -32602; the error data carries the thrown message as
details, and the stack exactly when NODE_ENV is the string development. -/
theorem C4_agent_error_amended (env : Env) (aid : String) (b : Body) (p : Params)
    (e : JsError)
    (h1 : b.jsonrpc = some "2.0") (h2 : truthyStr b.id = true)
    (h3 : env.agentExists = true) (hp : b.params = some p)
    (hml : extractMessages p ≠ [])
    (hc : allEmptyContent ((extractMessages p).map flattenMsg) = false) :
    (handler env (.error e) aid (.obj b)).2 = 500 ∧
    errCode (handler env (.error e) aid (.obj b)) =
      some (if jsIncludes e.message "Agent" then -32602 else -32603) ∧
    ((handler env (.error e) aid (.obj b)).1.error).map
        (fun err => err.data.map (fun d => d.details)) = some (some e.message) ∧
    errStack (handler env (.error e) aid (.obj b)) =
      (if env.nodeEnv = some "development" then e.stack else none) := by
  rw [handler_error_eq env aid b p e h1 h2 h3 hp hml hc]
  exact ⟨rfl, rfl, rfl, rfl⟩

/-- Witness for C4 amended: the catch-block outcome at a concrete
request whose agent call throws. -/
theorem C4_agent_error_amended_witness :
    (handler env0 (.error agentErr) "a" (.obj bodyHi)).2 = 500 ∧
    errCode (handler env0 (.error agentErr) "a" (.obj bodyHi)) =
      some (if jsIncludes agentErr.message "Agent" then -32602 else -32603) ∧
    ((handler env0 (.error agentErr) "a" (.obj bodyHi)).1.error).map
        (fun err => err.data.map (fun d => d.details)) =
      some (some agentErr.message) ∧
    errStack (handler env0 (.error agentErr) "a" (.obj bodyHi)) =
      (if env0.nodeEnv = some "development" then agentErr.stack else none) :=
  C4_agent_error_amended env0 "a" bodyHi paramsHi agentErr rfl rfl rfl rfl
    (List.cons_ne_nil msgHi []) rfl

/-- C7: a successful invocation yields a completed task whose final
status message has role agent and exactly one text part carrying the
reply, and whose history lists one normalized entry per inbound message
in order followed by a final agent message carrying the same reply. -/
theorem C7_success_shape (env : Env) (aid : String) (b : Body) (p : Params)
    (res : AgentResult)
    (h1 : b.jsonrpc = some "2.0") (h2 : truthyStr b.id = true)
    (h3 : env.agentExists = true) (hp : b.params = some p)
    (hml : extractMessages p ≠ [])
    (hc : allEmptyContent ((extractMessages p).map flattenMsg) = false) :
    (handler env (.ok res) aid (.obj b)).2 = 200 ∧
    ∃ t : TaskResult,
      (handler env (.ok res) aid (.obj b)).1.result = some t ∧
      t.kind = "task" ∧
      t.status.state = "completed" ∧
      t.status.message.role = "agent" ∧
      t.status.message.parts = [agentTextPart ((res.text).getD "")] ∧
      t.history.length = (extractMessages p).length + 1 ∧
      (∀ i, (hi : i < (extractMessages p).length) →
        ∃ hm : TaskMessage, t.history[i]? = some hm ∧
          hm.role = orD ((extractMessages p).get ⟨i, hi⟩).role "user" ∧
          hm.parts = normalizeParts ((extractMessages p).get ⟨i, hi⟩)) ∧
      (∃ last : TaskMessage, t.history.getLast? = some last ∧
        last.role = "agent" ∧
        last.parts = [agentTextPart ((res.text).getD "")]) := by
  rw [handler_ok_eq env aid b p res h1 h2 h3 hp hml hc]
  refine ⟨rfl, _, rfl, rfl, rfl, rfl, rfl, ?_, ?_, ?_⟩
  · simp [List.length_append, List.length_map, List.enum_length]
  · intro i hi
    refine ⟨historyEntry env (orD p.taskId (env.uuidSupply 0)) i
      ((extractMessages p).get ⟨i, hi⟩), ?_, rfl, rfl⟩
    rw [List.getElem?_append_left (by simpa [List.enum_length] using hi),
        List.getElem?_map, List.getElem?_enum,
        List.getElem?_eq_getElem hi]
    simp [List.get_eq_getElem]
  · exact ⟨_, List.getLast?_concat _, rfl, rfl⟩

/-- Witness for C7: the completed-task shape at a concrete request. -/
theorem C7_success_shape_witness :
    (handler env0 agentOk "a" (.obj bodyHi)).2 = 200 ∧
    ∃ t : TaskResult,
      (handler env0 agentOk "a" (.obj bodyHi)).1.result = some t ∧
      t.kind = "task" ∧
      t.status.state = "completed" ∧
      t.status.message.role = "agent" ∧
      t.status.message.parts = [agentTextPart "reply"] ∧
      t.history.length = ([msgHi] : List Msg).length + 1 ∧
      (∀ i, (hi : i < ([msgHi] : List Msg).length) →
        ∃ hm : TaskMessage, t.history[i]? = some hm ∧
          hm.role = orD (([msgHi] : List Msg).get ⟨i, hi⟩).role "user" ∧
          hm.parts = normalizeParts (([msgHi] : List Msg).get ⟨i, hi⟩)) ∧
      (∃ last : TaskMessage, t.history.getLast? = some last ∧
        last.role = "agent" ∧
        last.parts = [agentTextPart "reply"]) :=
  C7_success_shape env0 "a" bodyHi paramsHi
    { text := some "reply", toolResults := none } rfl rfl rfl rfl
    (List.cons_ne_nil msgHi []) rfl

/-- C9: every element of the web-search tool output has a non-empty url,
a content of at most 500 characters, and is the image of some provider
result under the per-result mapping that truncates the absent-defaulted
text to its first 500 characters. -/
theorem C9_search_results_shape (rs : List ExaResult) (it : SearchItem)
    (h : it ∈ mapResults rs) :
    it.url ≠ "" ∧ it.content.length ≤ 500 ∧
    ∃ r ∈ rs, it = mapResult r := by
  rw [mapResults, List.mem_filter] at h
  obtain ⟨hmem, hurl⟩ := h
  rw [List.mem_map] at hmem
  obtain ⟨r, hr, rfl⟩ := hmem
  refine ⟨by simpa using hurl, ?_, r, hr, rfl⟩
  show (jsSlice ((r.text).getD "") 500).length ≤ 500
  have : (jsSlice ((r.text).getD "") 500).length =
      (((r.text).getD "").data.take 500).length := rfl
  rw [this, List.length_take]
  exact min_le_left _ _

/-- Witness for C9: the mapped concrete provider result has a non-empty
url and truncated content. -/
theorem C9_search_results_shape_witness :
    (mapResult exaLong).url ≠ "" ∧ (mapResult exaLong).content.length ≤ 500 ∧
    ∃ r ∈ [exaLong], mapResult exaLong = mapResult r :=
  C9_search_results_shape [exaLong] (mapResult exaLong)
    (by rw [show mapResults [exaLong] = [mapResult exaLong] from rfl]; exact List.mem_singleton.mpr rfl)

/-- C10: on a schema-valid analyze-step result the competitor-research
score lies in the unit interval and equals three tenths without
competitors, five tenths without specific names, six tenths without
relevance, and otherwise eight tenths plus two tenths of the confidence,
hence at least eight tenths. -/
theorem C10_scorer_values (r : AnalyzeResult)
    (hc : ∀ c : ℚ, r.confidence = some c → 0 ≤ c ∧ c ≤ 1) :
    (0 ≤ generateScore r ∧ generateScore r ≤ 1) ∧
    (r.competitorsFound = false → generateScore r = 3 / 10) ∧
    (r.competitorsFound = true → r.specificNames = false →
      generateScore r = 5 / 10) ∧
    (r.competitorsFound = true → r.specificNames = true →
      r.relevantToIdea = false → generateScore r = 6 / 10) ∧
    (r.competitorsFound = true → r.specificNames = true →
      r.relevantToIdea = true →
      generateScore r = 8 / 10 + 2 / 10 * ((r.confidence).getD 1) ∧
      8 / 10 ≤ generateScore r) := by
  have hconf : 0 ≤ (r.confidence).getD 1 ∧ (r.confidence).getD 1 ≤ 1 := by
    cases hcc : r.confidence with
    | none => simp
    | some c => simpa using hc c hcc
  obtain ⟨hc0, hc1⟩ := hconf
  have hle : 8 / 10 + 2 / 10 * ((r.confidence).getD 1) ≤ 1 := by nlinarith
  have hge : (8 : ℚ) / 10 ≤ 8 / 10 + 2 / 10 * ((r.confidence).getD 1) := by nlinarith
  have hfull : r.competitorsFound = true → r.specificNames = true →
      r.relevantToIdea = true →
      generateScore r = 8 / 10 + 2 / 10 * ((r.confidence).getD 1) := by
    intro ha hb hd
    rw [generateScore, ha, hb, hd]
    simp only [Bool.not_true, Bool.false_eq_true, if_false]
    rw [min_eq_right hle, max_eq_right (le_trans (by norm_num) hge)]
  refine ⟨?_, ?_, ?_, ?_, fun ha hb hd => ⟨hfull ha hb hd, ?_⟩⟩
  · cases ha : r.competitorsFound with
    | false => rw [generateScore, ha]; norm_num
    | true =>
      cases hb : r.specificNames with
      | false => rw [generateScore, ha, hb]; norm_num
      | true =>
        cases hd : r.relevantToIdea with
        | false => rw [generateScore, ha, hb, hd]; norm_num
        | true =>
          rw [hfull ha hb hd]
          constructor
          · linarith
          · exact hle
  · intro ha; rw [generateScore, ha]; norm_num
  · intro ha hb; rw [generateScore, ha, hb]; norm_num
  · intro ha hb hd; rw [generateScore, ha, hb, hd]; norm_num
  · rw [hfull ha hb hd]; exact hge

/-- Witness for C10: the score of a concrete full analysis with
confidence one half. -/
theorem C10_scorer_values_witness :
    (0 ≤ generateScore analyzeFull ∧ generateScore analyzeFull ≤ 1) ∧
    (analyzeFull.competitorsFound = false → generateScore analyzeFull = 3 / 10) ∧
    (analyzeFull.competitorsFound = true → analyzeFull.specificNames = false →
      generateScore analyzeFull = 5 / 10) ∧
    (analyzeFull.competitorsFound = true → analyzeFull.specificNames = true →
      analyzeFull.relevantToIdea = false → generateScore analyzeFull = 6 / 10) ∧
    (analyzeFull.competitorsFound = true → analyzeFull.specificNames = true →
      analyzeFull.relevantToIdea = true →
      generateScore analyzeFull =
        8 / 10 + 2 / 10 * ((analyzeFull.confidence).getD 1) ∧
      8 / 10 ≤ generateScore analyzeFull) :=
  C10_scorer_values analyzeFull
    (by intro c hcc; rw [show analyzeFull.confidence = some (1 / 2) from rfl] at hcc;
        cases hcc; norm_num)
